import Mathlib

/-!
Shallow embedding of `logger.go` from edgexfoundry/support-logging-client-go
(package `logger`, the single source file of the repository).

The Go code routes leveled log calls either to a local file sink or to a
remote HTTP collector.  Effectful operations (stdout printing, directory
creation, file open/append, launching the detached HTTP request) are made
explicit: every embedded function returns, next to its Go return value, the
list of observable events it emitted and the updated file-system and client
state.  Environment behaviour that the Go code only observes through error
returns (does a directory exist, does `os.OpenFile` fail, does
`json.Marshal` or `http.NewRequest` fail, does the transport fail) is an
oracle packaged in a `World` record, so that every error branch of the
source is reachable in the model.
-/

/-- Type `support_domain.LogLevel` from edgexfoundry/support-domain-go:
`type LogLevel string` with the five level constants. -/
inductive LogLevel where
  | TRACE
  | DEBUG
  | INFO
  | WARN
  | ERROR
deriving DecidableEq, Repr

/-- Go `string(logLevel)`: the underlying string of a `support_domain.LogLevel`
constant ("TRACE", "DEBUG", "INFO", "WARN", "ERROR"). -/
def LogLevel.str : LogLevel → String
  | .TRACE => "TRACE"
  | .DEBUG => "DEBUG"
  | .INFO => "INFO"
  | .WARN => "WARN"
  | .ERROR => "ERROR"

/-- Type `support_domain.LogEntry` (the fields the client populates in
`buildLogEntry`). -/
structure LogEntry where
  Level : LogLevel
  Message : String
  Labels : List String
  OriginService : String
deriving DecidableEq, Repr

/-- Flags passed to `os.OpenFile` by `saveToLogFile`. -/
inductive OpenFlag where
  | O_APPEND
  | O_CREATE
  | O_WRONLY
deriving DecidableEq, Repr

/-- One observable side effect of a call into the client.

* `printLine s` — `fmt.Println(s)` wrote the line `s` to stdout.
* `stdLogLine pfx msg` — `StdOutLogger.Println(msg)` wrote a stdout line
  starting with the logger prefix `pfx`, followed by the date/time and
  file-location header (outside the model) and `msg`.
* `mkdirAll dir perm` — `os.MkdirAll(dir, perm)` was invoked.
* `openFile path flags perm` — `os.OpenFile(path, flags, perm)` was invoked.
* `fileAppend path pfx msg` — `FileLogger.Println(msg)` appended to `path`
  one line starting with prefix `pfx` (again followed by the date/time and
  file-location header, outside the model) and `msg`.
* `remoteLaunch url entry` — `go lc.makeRequest(...)` launched the detached
  POST of `entry` (as JSON, Content-Type application/json) to `url`. -/
inductive Event where
  | printLine (s : String)
  | stdLogLine (pfx msg : String)
  | mkdirAll (dir : String) (perm : Nat)
  | openFile (path : String) (flags : List OpenFlag) (perm : Nat)
  | fileAppend (path pfx msg : String)
  | remoteLaunch (url : String) (entry : LogEntry)
deriving DecidableEq, Repr

/-- Mutable state of the `log.Logger` behind `StdOutLogger`: its output is
always `os.Stdout`, so only the prefix is tracked. -/
structure StdLoggerSt where
  pfx : String
deriving DecidableEq, Repr

/-- Mutable state of the `log.Logger` behind `FileLogger`: the output
destination set by `SetOutput` (`none` until the first write; the path of
the opened file afterwards) and the prefix set by `SetPrefix`. -/
structure FileLoggerSt where
  out : Option String
  pfx : String
deriving DecidableEq, Repr

/-- The `LoggingClient` struct.  The two `*log.Logger` fields are pointers
in Go, so mutations through them are visible to every holder of the client;
the embedding therefore returns the updated client from each call. -/
structure LoggingClient where
  OwningServiceName : String
  RemoteEnabled : Bool
  LogTarget : String
  StdOutLogger : StdLoggerSt
  FileLogger : FileLoggerSt
deriving DecidableEq, Repr

/-- Constructor `NewClient`: stdout logger with empty prefix and date/time/shortfile
flags; file logger a fresh zero `log.Logger` with the same flags and no
output destination yet. -/
def NewClient (owningServiceName : String) (isRemote : Bool) (logTarget : String) :
    LoggingClient :=
  { OwningServiceName := owningServiceName
    RemoteEnabled := isRemote
    LogTarget := logTarget
    StdOutLogger := { pfx := "" }
    FileLogger := { out := none, pfx := "" } }

/-- One line of a log file as written by `FileLogger.Println`: the prefix
set by `SetPrefix` plus the message.  (The date/time and file-location
header that `log.Ldate|log.Ltime|log.Lshortfile` insert between the two is
real-time data outside the model.) -/
structure FileLine where
  pfx : String
  msg : String
deriving DecidableEq, Repr

/-- The file-system fragment the client touches: the set of existing
directories and, for each file, its list of lines. -/
structure FS where
  dirs : List String
  files : List (String × List FileLine)
deriving DecidableEq, Repr

/-- Contents of `path`, if the file exists. -/
def FS.lookupFile (fs : FS) (path : String) : Option (List FileLine) :=
  (fs.files.find? (fun p => p.1 = path)).map Prod.snd

/-- Effect of `os.OpenFile(..., O_CREATE, ...)` on the file system: create
the file empty when it does not exist, keep it untouched otherwise
(`O_APPEND`: no truncation). -/
def FS.ensureFile (fs : FS) (path : String) : FS :=
  if (fs.lookupFile path).isSome then fs
  else { fs with files := (path, []) :: fs.files }

/-- Effect of `FileLogger.Println` on the opened file: append one line. -/
def FS.appendLine (fs : FS) (path : String) (l : FileLine) : FS :=
  { fs with files := fs.files.map (fun p => if p.1 = path then (p.1, p.2 ++ [l]) else p) }

/-- Environment oracle: for each effectful operation whose outcome the Go
code can only observe through an error value, the oracle fixes that
outcome.  `none` means the operation succeeds, `some e` that it fails with
error message `e` (Go `err.Error()`). -/
structure World where
  mkdirErr : String → Option String
  openErr : String → Option String
  marshalErr : LogEntry → Option String
  reqErr : String → Option String
  transportErr : String → Option String

/-- Go `strings.TrimRight(s, "/")`. -/
def trimRightSlash (s : String) : String :=
  String.mk ((s.toList.reverse.dropWhile (fun c => c = '/')).reverse)

/-- Split a character list after its last `'/'`. -/
def splitLastSlash : List Char → List Char × List Char
  | [] => ([], [])
  | c :: cs =>
      if cs.contains '/' then
        let p := splitLastSlash cs
        (c :: p.1, p.2)
      else if c = '/' then
        ([c], cs)
      else
        ([], c :: cs)

/-- Go `filepath.Split(path)` on a Unix system: directory part up to and
including the final separator, and file-name part after it. -/
def filepathSplit (path : String) : String × String :=
  let p := splitLastSlash path.toList
  (String.mk p.1, String.mk p.2)

/-- Function `verifyLogDirectory`: trim the directory part of the path; when it is
non-empty and `os.Stat` reports it missing, print a notice and call
`os.MkdirAll(dir, 0766)`.  The `MkdirAll` return value is discarded by the
source, so a creation failure only leaves the directory missing.
Returns the updated file system and the emitted events. -/
def verifyLogDirectory (w : World) (fs : FS) (path : String) : FS × List Event :=
  let dir := trimRightSlash (filepathSplit path).1
  if dir.length > 0 then
    if fs.dirs.contains dir then (fs, [])
    else
      let evs := [Event.printLine ("Creating directory: " ++ dir),
                  Event.mkdirAll dir 0o766]
      match w.mkdirErr dir with
      | some _ => (fs, evs)
      | none => ({ fs with dirs := dir :: fs.dirs }, evs)
  else (fs, [])

/-- Outcome of a piece of Go code: a value, or a runtime panic. -/
inductive GoOutcome (α : Type) where
  | ok (val : α)
  | panicked (msg : String)
deriving DecidableEq, Repr

/-- Go `os.ErrInvalid.Error()`. -/
def errInvalid : String := "invalid argument"

/-- Method `(*os.File).Close` from the Go standard library: its receiver is a
pointer, and the method checks it for `nil` and returns `os.ErrInvalid` in
that case — it does not panic.  The handle is `none` exactly when the Go
file pointer is `nil` (which is what `os.OpenFile` returns on failure). -/
def goFileClose : Option String → GoOutcome (Option String)
  | none => .ok (some errInvalid)
  | some _ => .ok none

/-- Result of one client call: the returned `error` (`none` = Go `nil`),
the client state after the call, the file system after the call, and the
emitted events in order. -/
structure SinkResult where
  res : Option String
  client : LoggingClient
  fs : FS
  events : List Event
deriving DecidableEq, Repr

/-- Run the `defer file.Close()` registered by `saveToLogFile` at function
exit: the close error is discarded, a close panic would propagate. -/
def runDeferredClose (handle : Option String) (r : SinkResult) : GoOutcome SinkResult :=
  match goFileClose handle with
  | .ok _ => .ok r
  | .panicked m => .panicked m

/-- The returned error of an outcome (on a panic — unreachable, see the
`isOk` lemmas — a junk value tagging the panic). -/
def GoOutcome.resOf : GoOutcome SinkResult → Option String
  | .ok r => r.res
  | .panicked m => some ("panic: " ++ m)

/-- The events of an outcome (junk `[]` on a panic, which is unreachable). -/
def GoOutcome.eventsOf : GoOutcome SinkResult → List Event
  | .ok r => r.events
  | .panicked _ => []

/-- The client state of an outcome (junk on a panic, which is unreachable). -/
def GoOutcome.clientOf : GoOutcome SinkResult → LoggingClient
  | .ok r => r.client
  | .panicked _ => NewClient "" false ""

/-- The file system of an outcome (junk on a panic, which is unreachable). -/
def GoOutcome.fsOf : GoOutcome SinkResult → FS
  | .ok r => r.fs
  | .panicked _ => ⟨[], []⟩

/-- Whether the outcome is a normal return. -/
def GoOutcome.isOk : GoOutcome SinkResult → Bool
  | .ok _ => true
  | .panicked _ => false

/-- Method `saveToLogFile`: a no-op on empty target; otherwise verify the log
directory, open the target with `O_APPEND|O_CREATE|O_WRONLY` and mode 0644
(deferring `file.Close()`), and on success point `FileLogger` at the file,
set its prefix to `pfx ++ ": "` and append the message line.  An open
failure is printed and returned; the deferred close then runs on the `nil`
handle. -/
def LoggingClient.saveToLogFile (w : World) (lc : LoggingClient) (fs : FS)
    (pfx message : String) : GoOutcome SinkResult :=
  if lc.LogTarget = "" then
    .ok ⟨none, lc, fs, []⟩
  else
    let v := verifyLogDirectory w fs lc.LogTarget
    let openEv := Event.openFile lc.LogTarget
      [OpenFlag.O_APPEND, OpenFlag.O_CREATE, OpenFlag.O_WRONLY] 0o644
    match w.openErr lc.LogTarget with
    | some e =>
        runDeferredClose none
          ⟨some e, lc, v.1,
           v.2 ++ [openEv, Event.printLine ("Error opening log file: " ++ e)]⟩
    | none =>
        let fs1 := (v.1.ensureFile lc.LogTarget).appendLine lc.LogTarget
          ⟨pfx ++ ": ", message⟩
        let lc1 := { lc with FileLogger := { out := some lc.LogTarget, pfx := pfx ++ ": " } }
        runDeferredClose (some lc.LogTarget)
          ⟨none, lc1, fs1,
           v.2 ++ [openEv, Event.fileAppend lc.LogTarget (pfx ++ ": ") message]⟩

/-- Method `buildLogEntry`. -/
def LoggingClient.buildLogEntry (lc : LoggingClient) (logLevel : LogLevel)
    (msg : String) (labels : List String) : LogEntry :=
  { Level := logLevel
    Message := msg
    Labels := labels
    OriginService := lc.OwningServiceName }

/-- Method `sendLog`: a no-op on empty target; a `json.Marshal` or `http.NewRequest`
failure is printed and returned; otherwise the POST is launched on a
detached goroutine and `nil` is returned immediately. -/
def LoggingClient.sendLog (w : World) (lc : LoggingClient) (fs : FS)
    (logEntry : LogEntry) : GoOutcome SinkResult :=
  if lc.LogTarget = "" then
    .ok ⟨none, lc, fs, []⟩
  else
    match w.marshalErr logEntry with
    | some e => .ok ⟨some e, lc, fs, [Event.printLine e]⟩
    | none =>
        match w.reqErr lc.LogTarget with
        | some e => .ok ⟨some e, lc, fs, [Event.printLine e]⟩
        | none => .ok ⟨none, lc, fs, [Event.remoteLaunch lc.LogTarget
            (logEntry)]⟩

/-- Method `makeRequest`, the body of the detached goroutine: perform the request;
a transport error is printed, a response is closed.  It returns nothing, so
its only observable behaviour is the events it emits. -/
def LoggingClient.makeRequest (w : World) (url : String) : List Event :=
  match w.transportErr url with
  | some e => [Event.printLine e]
  | none => []

/-- The internal dispatch `log`: local file sink when `RemoteEnabled` is
false, otherwise build the entry and send it to the logging service. -/
def LoggingClient.log (w : World) (lc : LoggingClient) (fs : FS)
    (logLevel : LogLevel) (msg : String) (labels : List String) : GoOutcome SinkResult :=
  if !lc.RemoteEnabled then
    lc.saveToLogFile w fs logLevel.str msg
  else
    lc.sendLog w fs (lc.buildLogEntry logLevel msg labels)

/-- Method `Info`: set the stdout logger prefix to `"INFO: "`, print the message
to stdout, delegate to `log` with level INFO. -/
def LoggingClient.Info (w : World) (lc : LoggingClient) (fs : FS)
    (msg : String) (labels : List String) : GoOutcome SinkResult :=
  let lc1 := { lc with StdOutLogger := { pfx := "INFO: " } }
  match LoggingClient.log w lc1 fs LogLevel.INFO msg labels with
  | .ok r => .ok { r with events := Event.stdLogLine "INFO: " msg :: r.events }
  | .panicked m => .panicked m

/-- Method `Trace`: the body of the Go method is empty — no state change, no
events, no return value. -/
def LoggingClient.Trace (w : World) (lc : LoggingClient) (fs : FS)
    (msg : String) (labels : List String) : LoggingClient × FS × List Event :=
  (lc, fs, [])

/-- Method `Debug`: set the stdout logger prefix to `"DEBUG: "`, print the message
to stdout, delegate to `log` with level DEBUG. -/
def LoggingClient.Debug (w : World) (lc : LoggingClient) (fs : FS)
    (msg : String) (labels : List String) : GoOutcome SinkResult :=
  let lc1 := { lc with StdOutLogger := { pfx := "DEBUG: " } }
  match LoggingClient.log w lc1 fs LogLevel.DEBUG msg labels with
  | .ok r => .ok { r with events := Event.stdLogLine "DEBUG: " msg :: r.events }
  | .panicked m => .panicked m

/-- Method `Warn`: set the stdout logger prefix to `"WARN: "`, print the message
to stdout, delegate to `log` with level WARN. -/
def LoggingClient.Warn (w : World) (lc : LoggingClient) (fs : FS)
    (msg : String) (labels : List String) : GoOutcome SinkResult :=
  let lc1 := { lc with StdOutLogger := { pfx := "WARN: " } }
  match LoggingClient.log w lc1 fs LogLevel.WARN msg labels with
  | .ok r => .ok { r with events := Event.stdLogLine "WARN: " msg :: r.events }
  | .panicked m => .panicked m

/-- Method `Error`: set the stdout logger prefix to `"ERROR: "`, print the message
to stdout, delegate to `log` with level ERROR. -/
def LoggingClient.Error (w : World) (lc : LoggingClient) (fs : FS)
    (msg : String) (labels : List String) : GoOutcome SinkResult :=
  let lc1 := { lc with StdOutLogger := { pfx := "ERROR: " } }
  match LoggingClient.log w lc1 fs LogLevel.ERROR msg labels with
  | .ok r => .ok { r with events := Event.stdLogLine "ERROR: " msg :: r.events }
  | .panicked m => .panicked m

/-! ### Fixtures and helper lemmas -/

/-- A world in which every environment operation succeeds. -/
def wOk : World :=
  ⟨fun _ => none, fun _ => none, fun _ => none, fun _ => none, fun _ => none⟩

/-- The empty file system. -/
def fs0 : FS := ⟨[], []⟩

theorem ensureFile_dirs (fs : FS) (p : String) : (fs.ensureFile p).dirs = fs.dirs := by
  unfold FS.ensureFile
  split <;> rfl

theorem appendLine_dirs (fs : FS) (p : String) (l : FileLine) :
    (fs.appendLine p l).dirs = fs.dirs := rfl

theorem verifyLogDirectory_files (w : World) (fs : FS) (path : String) :
    (verifyLogDirectory w fs path).1.files = fs.files := by
  simp only [verifyLogDirectory]
  split
  · split
    · rfl
    · split <;> rfl
  · rfl

theorem verifyLogDirectory_events_mkdirErr (w : World) (f : String → Option String)
    (fs : FS) (path : String) :
    (verifyLogDirectory { w with mkdirErr := f } fs path).2 =
      (verifyLogDirectory w fs path).2 := by
  simp only [verifyLogDirectory]
  split
  · split
    · rfl
    · cases f (trimRightSlash (filepathSplit path).1) <;>
        cases w.mkdirErr (trimRightSlash (filepathSplit path).1) <;> rfl
  · rfl

theorem verifyLogDirectory_events_shape (w : World) (fs : FS) (path : String) :
    (verifyLogDirectory w fs path).2 = [] ∨
    (verifyLogDirectory w fs path).2 =
      [Event.printLine ("Creating directory: " ++ trimRightSlash (filepathSplit path).1),
       Event.mkdirAll (trimRightSlash (filepathSplit path).1) 0o766] := by
  simp only [verifyLogDirectory]
  split
  · split
    · exact Or.inl rfl
    · split <;> exact Or.inr rfl
  · exact Or.inl rfl

theorem saveToLogFile_empty (w : World) (lc : LoggingClient) (fs : FS)
    (pfx msg : String) (h : lc.LogTarget = "") :
    lc.saveToLogFile w fs pfx msg = .ok ⟨none, lc, fs, []⟩ := by
  simp [LoggingClient.saveToLogFile, h]

theorem saveToLogFile_openFail (w : World) (lc : LoggingClient) (fs : FS)
    (pfx msg e : String) (ht : lc.LogTarget ≠ "") (he : w.openErr lc.LogTarget = some e) :
    lc.saveToLogFile w fs pfx msg = .ok
      ⟨some e, lc, (verifyLogDirectory w fs lc.LogTarget).1,
       (verifyLogDirectory w fs lc.LogTarget).2 ++
         [Event.openFile lc.LogTarget
            [OpenFlag.O_APPEND, OpenFlag.O_CREATE, OpenFlag.O_WRONLY] 0o644,
          Event.printLine ("Error opening log file: " ++ e)]⟩ := by
  simp [LoggingClient.saveToLogFile, ht, he, runDeferredClose, goFileClose]

theorem saveToLogFile_success (w : World) (lc : LoggingClient) (fs : FS)
    (pfx msg : String) (ht : lc.LogTarget ≠ "") (he : w.openErr lc.LogTarget = none) :
    lc.saveToLogFile w fs pfx msg = .ok
      ⟨none, { lc with FileLogger := ⟨some lc.LogTarget, pfx ++ ": "⟩ },
       ((verifyLogDirectory w fs lc.LogTarget).1.ensureFile lc.LogTarget).appendLine
         lc.LogTarget ⟨pfx ++ ": ", msg⟩,
       (verifyLogDirectory w fs lc.LogTarget).2 ++
         [Event.openFile lc.LogTarget
            [OpenFlag.O_APPEND, OpenFlag.O_CREATE, OpenFlag.O_WRONLY] 0o644,
          Event.fileAppend lc.LogTarget (pfx ++ ": ") msg]⟩ := by
  simp [LoggingClient.saveToLogFile, ht, he, runDeferredClose, goFileClose]

theorem sendLog_empty (w : World) (lc : LoggingClient) (fs : FS) (entry : LogEntry)
    (h : lc.LogTarget = "") :
    lc.sendLog w fs entry = .ok ⟨none, lc, fs, []⟩ := by
  simp [LoggingClient.sendLog, h]

theorem find_after_appendLine (L : List (String × List FileLine)) (path : String)
    (l : FileLine) :
    (L.map (fun p => if p.1 = path then (p.1, p.2 ++ [l]) else p)).find?
        (fun p => p.1 = path) =
      (L.find? (fun p => p.1 = path)).map (fun p => (p.1, p.2 ++ [l])) := by
  induction L with
  | nil => rfl
  | cons a L ih =>
      by_cases h : a.1 = path
      · simp [List.find?, h]
      · simp [List.find?, h, ih]

theorem lookupFile_appendLine (fs : FS) (path : String) (l : FileLine) :
    (fs.appendLine path l).lookupFile path =
      (fs.files.find? (fun p => p.1 = path)).map (fun p => p.2 ++ [l]) := by
  unfold FS.appendLine FS.lookupFile
  rw [find_after_appendLine]
  cases fs.files.find? (fun p => p.1 = path) <;> rfl

theorem lookupFile_ensure_append (fs : FS) (path : String) (l : FileLine) :
    ((fs.ensureFile path).appendLine path l).lookupFile path =
      some ((fs.lookupFile path).getD [] ++ [l]) := by
  cases hfind : fs.files.find? (fun p => p.1 = path) with
  | none =>
      have h1 : fs.lookupFile path = none := by simp [FS.lookupFile, hfind]
      have h2 : fs.ensureFile path = ⟨fs.dirs, (path, []) :: fs.files⟩ := by
        unfold FS.ensureFile
        rw [h1]
        rfl
      rw [h2, lookupFile_appendLine, h1]
      simp
  | some q =>
      have h1 : fs.lookupFile path = some q.2 := by simp [FS.lookupFile, hfind]
      have h2 : fs.ensureFile path = fs := by
        unfold FS.ensureFile
        rw [h1]
        rfl
      rw [h2, lookupFile_appendLine, hfind, h1]
      rfl

theorem sendLog_ok (w : World) (lc : LoggingClient) (fs : FS) (entry : LogEntry) :
    ∃ r, lc.sendLog w fs entry = .ok r ∧ r.client = lc ∧ r.fs = fs := by
  unfold LoggingClient.sendLog
  by_cases ht : lc.LogTarget = ""
  · rw [if_pos ht]
    exact ⟨_, rfl, rfl, rfl⟩
  · rw [if_neg ht]
    cases w.marshalErr entry
    · cases w.reqErr lc.LogTarget
      · exact ⟨_, rfl, rfl, rfl⟩
      · exact ⟨_, rfl, rfl, rfl⟩
    · exact ⟨_, rfl, rfl, rfl⟩

theorem log_ok (w : World) (lc : LoggingClient) (fs : FS) (lv : LogLevel)
    (msg : String) (labels : List String) :
    ∃ r, LoggingClient.log w lc fs lv msg labels = .ok r ∧
      (r.client = lc ∨
       r.client = { lc with FileLogger := ⟨some lc.LogTarget, lv.str ++ ": "⟩ }) := by
  unfold LoggingClient.log
  split
  · by_cases ht : lc.LogTarget = ""
    · exact ⟨_, saveToLogFile_empty w lc fs _ _ ht, Or.inl rfl⟩
    · cases he : w.openErr lc.LogTarget with
      | some e => exact ⟨_, saveToLogFile_openFail w lc fs _ _ e ht he, Or.inl rfl⟩
      | none => exact ⟨_, saveToLogFile_success w lc fs _ _ ht he, Or.inr rfl⟩
  · obtain ⟨r, hr, hcl, _⟩ := sendLog_ok w lc fs (lc.buildLogEntry lv msg labels)
    exact ⟨r, hr, Or.inl hcl⟩

theorem verifyLogDirectory_no_fileAppend (w : World) (fs : FS)
    (path p pf m : String) :
    Event.fileAppend p pf m ∉ (verifyLogDirectory w fs path).2 := by
  rcases verifyLogDirectory_events_shape w fs path with h | h <;> simp [h]

theorem log_empty_target (w : World) (lc : LoggingClient) (fs : FS) (lv : LogLevel)
    (msg : String) (labels : List String) (h : lc.LogTarget = "") :
    LoggingClient.log w lc fs lv msg labels = .ok ⟨none, lc, fs, []⟩ := by
  unfold LoggingClient.log
  split
  · exact saveToLogFile_empty w lc fs _ _ h
  · exact sendLog_empty w lc fs _ h

theorem log_labels_local (w : World) (lc : LoggingClient) (fs : FS) (lv : LogLevel)
    (msg : String) (labels1 labels2 : List String) (h : lc.RemoteEnabled = false) :
    LoggingClient.log w lc fs lv msg labels1 =
      LoggingClient.log w lc fs lv msg labels2 := by
  unfold LoggingClient.log
  have hc : (!lc.RemoteEnabled) = true := by rw [h]; rfl
  rw [if_pos hc, if_pos hc]

/-! ### Claim theorems -/

/-- C1: when the log target is the empty string, each of `Info`, `Debug`,
`Warn` and `Error` returns nil and the sink dispatch is a successful no-op
— no file write, no directory creation, no remote send — in both local and
remote mode: the call's only event is its own stdout line and the file
system is unchanged. -/
theorem C1_empty_target_noop (w : World) (lc : LoggingClient) (fs : FS)
    (msg : String) (labels : List String) (h : lc.LogTarget = "") :
    LoggingClient.Info w lc fs msg labels =
      .ok ⟨none, { lc with StdOutLogger := ⟨"INFO: "⟩ }, fs,
           [Event.stdLogLine "INFO: " msg]⟩ ∧
    LoggingClient.Debug w lc fs msg labels =
      .ok ⟨none, { lc with StdOutLogger := ⟨"DEBUG: "⟩ }, fs,
           [Event.stdLogLine "DEBUG: " msg]⟩ ∧
    LoggingClient.Warn w lc fs msg labels =
      .ok ⟨none, { lc with StdOutLogger := ⟨"WARN: "⟩ }, fs,
           [Event.stdLogLine "WARN: " msg]⟩ ∧
    LoggingClient.Error w lc fs msg labels =
      .ok ⟨none, { lc with StdOutLogger := ⟨"ERROR: "⟩ }, fs,
           [Event.stdLogLine "ERROR: " msg]⟩ := by
  refine ⟨?_, ?_, ?_, ?_⟩
  · simp only [LoggingClient.Info]
    rw [log_empty_target w { lc with StdOutLogger := ⟨"INFO: "⟩ } fs
      LogLevel.INFO msg labels h]
  · simp only [LoggingClient.Debug]
    rw [log_empty_target w { lc with StdOutLogger := ⟨"DEBUG: "⟩ } fs
      LogLevel.DEBUG msg labels h]
  · simp only [LoggingClient.Warn]
    rw [log_empty_target w { lc with StdOutLogger := ⟨"WARN: "⟩ } fs
      LogLevel.WARN msg labels h]
  · simp only [LoggingClient.Error]
    rw [log_empty_target w { lc with StdOutLogger := ⟨"ERROR: "⟩ } fs
      LogLevel.ERROR msg labels h]

/-- C2: the internal dispatch selects the local file sink when
`RemoteEnabled` is false; when it is true it builds a `LogEntry` whose
level, message, labels and origin service are exactly the method's level,
the message, the labels in order and the client's owning service name, and
passes that entry to the remote sender. -/
theorem C2_dispatch (w : World) (lc : LoggingClient) (fs : FS) (lv : LogLevel)
    (msg : String) (labels : List String) :
    (lc.RemoteEnabled = false →
       LoggingClient.log w lc fs lv msg labels = lc.saveToLogFile w fs lv.str msg) ∧
    (lc.RemoteEnabled = true →
       lc.buildLogEntry lv msg labels =
         { Level := lv, Message := msg, Labels := labels,
           OriginService := lc.OwningServiceName } ∧
       LoggingClient.log w lc fs lv msg labels =
         lc.sendLog w fs { Level := lv, Message := msg, Labels := labels,
                           OriginService := lc.OwningServiceName }) := by
  constructor
  · intro h
    unfold LoggingClient.log
    rw [if_pos (show (!lc.RemoteEnabled) = true by rw [h]; rfl)]
  · intro h
    refine ⟨rfl, ?_⟩
    unfold LoggingClient.log
    rw [if_neg (show ¬ (!lc.RemoteEnabled) = true by rw [h]; simp)]
    rfl

/-- C6: `Trace` is a complete no-op: no stdout output, no file write, no
remote send, no dispatch, and no state change of any kind. -/
theorem C6_trace_noop (w : World) (lc : LoggingClient) (fs : FS)
    (msg : String) (labels : List String) :
    LoggingClient.Trace w lc fs msg labels = (lc, fs, []) := rfl

/-- C9: in local mode two calls to the same leveled method that differ only
in their labels have identical outcome — same returned error, same stdout
and file-sink output, same final state: the local path never consults the
labels. -/
theorem C9_labels_no_influence_local (w : World) (lc : LoggingClient) (fs : FS)
    (msg : String) (labels1 labels2 : List String) (h : lc.RemoteEnabled = false) :
    LoggingClient.Info w lc fs msg labels1 = LoggingClient.Info w lc fs msg labels2 ∧
    LoggingClient.Debug w lc fs msg labels1 = LoggingClient.Debug w lc fs msg labels2 ∧
    LoggingClient.Warn w lc fs msg labels1 = LoggingClient.Warn w lc fs msg labels2 ∧
    LoggingClient.Error w lc fs msg labels1 = LoggingClient.Error w lc fs msg labels2 := by
  refine ⟨?_, ?_, ?_, ?_⟩
  · simp only [LoggingClient.Info]
    rw [log_labels_local w { lc with StdOutLogger := ⟨"INFO: "⟩ } fs
      LogLevel.INFO msg labels1 labels2 h]
  · simp only [LoggingClient.Debug]
    rw [log_labels_local w { lc with StdOutLogger := ⟨"DEBUG: "⟩ } fs
      LogLevel.DEBUG msg labels1 labels2 h]
  · simp only [LoggingClient.Warn]
    rw [log_labels_local w { lc with StdOutLogger := ⟨"WARN: "⟩ } fs
      LogLevel.WARN msg labels1 labels2 h]
  · simp only [LoggingClient.Error]
    rw [log_labels_local w { lc with StdOutLogger := ⟨"ERROR: "⟩ } fs
      LogLevel.ERROR msg labels1 labels2 h]

/-- C4: every leveled method (INFO, DEBUG, WARN, ERROR) first writes a
stdout line prefixed with the level name followed by ": " and only then
delegates to the sink dispatch, whatever the configuration: the call's
event list is exactly that stdout line followed by the dispatch's events. -/
theorem C4_stdout_line_first (w : World) (lc : LoggingClient) (fs : FS)
    (msg : String) (labels : List String) :
    (∃ r, LoggingClient.Info w lc fs msg labels = .ok r ∧
       r.events = Event.stdLogLine "INFO: " msg ::
         (LoggingClient.log w { lc with StdOutLogger := ⟨"INFO: "⟩ } fs
            LogLevel.INFO msg labels).eventsOf) ∧
    (∃ r, LoggingClient.Debug w lc fs msg labels = .ok r ∧
       r.events = Event.stdLogLine "DEBUG: " msg ::
         (LoggingClient.log w { lc with StdOutLogger := ⟨"DEBUG: "⟩ } fs
            LogLevel.DEBUG msg labels).eventsOf) ∧
    (∃ r, LoggingClient.Warn w lc fs msg labels = .ok r ∧
       r.events = Event.stdLogLine "WARN: " msg ::
         (LoggingClient.log w { lc with StdOutLogger := ⟨"WARN: "⟩ } fs
            LogLevel.WARN msg labels).eventsOf) ∧
    (∃ r, LoggingClient.Error w lc fs msg labels = .ok r ∧
       r.events = Event.stdLogLine "ERROR: " msg ::
         (LoggingClient.log w { lc with StdOutLogger := ⟨"ERROR: "⟩ } fs
            LogLevel.ERROR msg labels).eventsOf) := by
  refine ⟨?_, ?_, ?_, ?_⟩
  · obtain ⟨r, hr, -⟩ := log_ok w { lc with StdOutLogger := ⟨"INFO: "⟩ } fs
      LogLevel.INFO msg labels
    refine ⟨{ r with events := Event.stdLogLine "INFO: " msg :: r.events }, ?_, ?_⟩
    · simp only [LoggingClient.Info]
      rw [hr]
    · rw [hr]
      rfl
  · obtain ⟨r, hr, -⟩ := log_ok w { lc with StdOutLogger := ⟨"DEBUG: "⟩ } fs
      LogLevel.DEBUG msg labels
    refine ⟨{ r with events := Event.stdLogLine "DEBUG: " msg :: r.events }, ?_, ?_⟩
    · simp only [LoggingClient.Debug]
      rw [hr]
    · rw [hr]
      rfl
  · obtain ⟨r, hr, -⟩ := log_ok w { lc with StdOutLogger := ⟨"WARN: "⟩ } fs
      LogLevel.WARN msg labels
    refine ⟨{ r with events := Event.stdLogLine "WARN: " msg :: r.events }, ?_, ?_⟩
    · simp only [LoggingClient.Warn]
      rw [hr]
    · rw [hr]
      rfl
  · obtain ⟨r, hr, -⟩ := log_ok w { lc with StdOutLogger := ⟨"ERROR: "⟩ } fs
      LogLevel.ERROR msg labels
    refine ⟨{ r with events := Event.stdLogLine "ERROR: " msg :: r.events }, ?_, ?_⟩
    · simp only [LoggingClient.Error]
      rw [hr]
    · rw [hr]
      rfl

theorem sendLog_marshalFail (w : World) (lc : LoggingClient) (fs : FS)
    (entry : LogEntry) (e : String) (ht : lc.LogTarget ≠ "")
    (he : w.marshalErr entry = some e) :
    lc.sendLog w fs entry = .ok ⟨some e, lc, fs, [Event.printLine e]⟩ := by
  simp [LoggingClient.sendLog, ht, he]

theorem sendLog_reqFail (w : World) (lc : LoggingClient) (fs : FS)
    (entry : LogEntry) (e : String) (ht : lc.LogTarget ≠ "")
    (hm : w.marshalErr entry = none) (he : w.reqErr lc.LogTarget = some e) :
    lc.sendLog w fs entry = .ok ⟨some e, lc, fs, [Event.printLine e]⟩ := by
  simp [LoggingClient.sendLog, ht, hm, he]

theorem sendLog_launch (w : World) (lc : LoggingClient) (fs : FS)
    (entry : LogEntry) (ht : lc.LogTarget ≠ "")
    (hm : w.marshalErr entry = none) (hr : w.reqErr lc.LogTarget = none) :
    lc.sendLog w fs entry =
      .ok ⟨none, lc, fs, [Event.remoteLaunch lc.LogTarget entry]⟩ := by
  simp [LoggingClient.sendLog, ht, hm, hr]

theorem log_local (w : World) (lc : LoggingClient) (fs : FS) (lv : LogLevel)
    (msg : String) (labels : List String) (h : lc.RemoteEnabled = false) :
    LoggingClient.log w lc fs lv msg labels = lc.saveToLogFile w fs lv.str msg := by
  unfold LoggingClient.log
  rw [if_pos (show (!lc.RemoteEnabled) = true by rw [h]; rfl)]

/-- C3 (amended): for every local-mode log call with a non-empty log
target, the caller's error is exactly the file-open outcome — a file-open
failure is printed and returned, and the non-nil error received is always
the open error — while a directory-creation failure is silently discarded:
it is neither returned nor reflected in the output, the returned error,
the emitted events and the final client state being identical whatever the
`MkdirAll` outcome. -/
theorem C3_open_error_only (w : World) (lc : LoggingClient) (fs : FS)
    (lv : LogLevel) (msg : String) (labels : List String)
    (hloc : lc.RemoteEnabled = false) (ht : lc.LogTarget ≠ "") :
    (LoggingClient.log w lc fs lv msg labels).resOf = w.openErr lc.LogTarget ∧
    (∀ e, w.openErr lc.LogTarget = some e →
       Event.printLine ("Error opening log file: " ++ e) ∈
         (LoggingClient.log w lc fs lv msg labels).eventsOf) ∧
    (∀ f, (LoggingClient.log { w with mkdirErr := f } lc fs lv msg labels).resOf =
            (LoggingClient.log w lc fs lv msg labels).resOf ∧
          (LoggingClient.log { w with mkdirErr := f } lc fs lv msg labels).eventsOf =
            (LoggingClient.log w lc fs lv msg labels).eventsOf ∧
          (LoggingClient.log { w with mkdirErr := f } lc fs lv msg labels).clientOf =
            (LoggingClient.log w lc fs lv msg labels).clientOf) := by
  refine ⟨?_, ?_, ?_⟩
  · rw [log_local w lc fs lv msg labels hloc]
    cases he : w.openErr lc.LogTarget with
    | some e => rw [saveToLogFile_openFail w lc fs lv.str msg e ht he]; rfl
    | none => rw [saveToLogFile_success w lc fs lv.str msg ht he]; rfl
  · intro e he
    rw [log_local w lc fs lv msg labels hloc,
      saveToLogFile_openFail w lc fs lv.str msg e ht he]
    simp [GoOutcome.eventsOf]
  · intro f
    rw [log_local w lc fs lv msg labels hloc,
      log_local { w with mkdirErr := f } lc fs lv msg labels hloc]
    cases he : w.openErr lc.LogTarget with
    | some e =>
        rw [saveToLogFile_openFail w lc fs lv.str msg e ht he,
          saveToLogFile_openFail { w with mkdirErr := f } lc fs lv.str msg e ht he]
        refine ⟨rfl, ?_, rfl⟩
        simp only [GoOutcome.eventsOf]
        rw [verifyLogDirectory_events_mkdirErr w f fs lc.LogTarget]
    | none =>
        rw [saveToLogFile_success w lc fs lv.str msg ht he,
          saveToLogFile_success { w with mkdirErr := f } lc fs lv.str msg ht he]
        refine ⟨rfl, ?_, rfl⟩
        simp only [GoOutcome.eventsOf]
        rw [verifyLogDirectory_events_mkdirErr w f fs lc.LogTarget]

/-- A world in which `os.MkdirAll` fails with a permission error for every
directory and every other environment operation succeeds. -/
def wMkdirFail : World :=
  { wOk with mkdirErr := fun _ => some "mkdir a: permission denied" }

/-- C3 counterexample: the claim as stated says a directory-creation
failure is "logged to stdout".  It is not: the source discards the
`MkdirAll` error.  Concretely, `Info` on the local client with target
"a/b.log" over the empty file system emits, in the world where `MkdirAll`
fails with "mkdir a: permission denied", exactly the same events and
returns exactly the same (nil) error as in the world where it succeeds, and
no emitted event carries the failure text. -/
theorem C3_counterexample :
    (LoggingClient.Info wMkdirFail (NewClient "svc" false "a/b.log") fs0
        "hello" []).eventsOf =
      (LoggingClient.Info wOk (NewClient "svc" false "a/b.log") fs0
        "hello" []).eventsOf ∧
    (LoggingClient.Info wMkdirFail (NewClient "svc" false "a/b.log") fs0
        "hello" []).resOf = none ∧
    Event.printLine "mkdir a: permission denied" ∉
      (LoggingClient.Info wMkdirFail (NewClient "svc" false "a/b.log") fs0
        "hello" []).eventsOf := by
  refine ⟨rfl, rfl, ?_⟩
  decide

/-- C5: for every remote send with a non-empty log target, the sender
returns a non-nil error exactly when JSON serialization or HTTP request
construction fails, and in those cases the error is also printed; on
success it returns nil with the detached request launched as its only
effect; its outcome never depends on the transport, whose failure the
detached `makeRequest` only prints. -/
theorem C5_send_error_contract (w : World) (lc : LoggingClient) (fs : FS)
    (entry : LogEntry) (ht : lc.LogTarget ≠ "") :
    ((lc.sendLog w fs entry).resOf ≠ none ↔
       (w.marshalErr entry ≠ none ∨ w.reqErr lc.LogTarget ≠ none)) ∧
    (∀ e, w.marshalErr entry = some e →
       lc.sendLog w fs entry = .ok ⟨some e, lc, fs, [Event.printLine e]⟩) ∧
    (∀ e, w.marshalErr entry = none → w.reqErr lc.LogTarget = some e →
       lc.sendLog w fs entry = .ok ⟨some e, lc, fs, [Event.printLine e]⟩) ∧
    (w.marshalErr entry = none → w.reqErr lc.LogTarget = none →
       lc.sendLog w fs entry = .ok ⟨none, lc, fs,
         [Event.remoteLaunch lc.LogTarget entry]⟩) ∧
    (∀ f, LoggingClient.sendLog { w with transportErr := f } lc fs entry =
       lc.sendLog w fs entry) ∧
    (∀ e, w.transportErr lc.LogTarget = some e →
       LoggingClient.makeRequest w lc.LogTarget = [Event.printLine e]) ∧
    (w.transportErr lc.LogTarget = none →
       LoggingClient.makeRequest w lc.LogTarget = []) := by
  refine ⟨?_, ?_, ?_, ?_, ?_, ?_, ?_⟩
  · cases hm : w.marshalErr entry with
    | some e =>
        rw [sendLog_marshalFail w lc fs entry e ht hm]
        simp [GoOutcome.resOf]
    | none =>
        cases hq : w.reqErr lc.LogTarget with
        | some e =>
            rw [sendLog_reqFail w lc fs entry e ht hm hq]
            simp [GoOutcome.resOf]
        | none =>
            rw [sendLog_launch w lc fs entry ht hm hq]
            simp [GoOutcome.resOf]
  · intro e he
    exact sendLog_marshalFail w lc fs entry e ht he
  · intro e hm hq
    exact sendLog_reqFail w lc fs entry e ht hm hq
  · intro hm hq
    exact sendLog_launch w lc fs entry ht hm hq
  · intro f
    rfl
  · intro e he
    simp [LoggingClient.makeRequest, he]
  · intro he
    simp [LoggingClient.makeRequest, he]

theorem verifyLogDirectory_creates (w : World) (fs : FS) (path : String)
    (hd : 0 < (trimRightSlash (filepathSplit path).1).length)
    (hnc : fs.dirs.contains (trimRightSlash (filepathSplit path).1) = false) :
    Event.mkdirAll (trimRightSlash (filepathSplit path).1) 0o766 ∈
      (verifyLogDirectory w fs path).2 ∧
    (w.mkdirErr (trimRightSlash (filepathSplit path).1) = none →
       (verifyLogDirectory w fs path).1.dirs.contains
         (trimRightSlash (filepathSplit path).1) = true) := by
  simp only [verifyLogDirectory]
  rw [if_pos hd, if_neg (show ¬ fs.dirs.contains
    (trimRightSlash (filepathSplit path).1) = true by rw [hnc]; simp)]
  cases hm : w.mkdirErr (trimRightSlash (filepathSplit path).1) with
  | some e =>
      refine ⟨by simp, ?_⟩
      intro hc
      cases hc
  | none =>
      refine ⟨by simp, ?_⟩
      intro _
      simp [List.contains]

theorem verifyLogDirectory_skip (w : World) (fs : FS) (path : String)
    (hc : fs.dirs.contains (trimRightSlash (filepathSplit path).1) = true) :
    verifyLogDirectory w fs path = (fs, []) := by
  simp [verifyLogDirectory, hc]
  intro _ hnot
  exact absurd (by simpa using hc) hnot

/-- C7: a local-mode log call with a non-empty target creates the missing
parent directory recursively with permissions 0766, opens the target with
`O_APPEND|O_CREATE|O_WRONLY` and permissions 0644, sets the file logger's
prefix to "LEVEL: ", pointing its output at the target, and appends exactly
one line carrying that prefix and the message; a second call on the
resulting client appends one further line to the same file without
truncating or recreating it. -/
theorem C7_local_file_sink (w : World) (lc : LoggingClient) (fs : FS) (lv : LogLevel)
    (msg msg2 : String) (labels labels2 : List String)
    (hloc : lc.RemoteEnabled = false) (ht : lc.LogTarget ≠ "")
    (hopen : w.openErr lc.LogTarget = none) :
    ∃ r, LoggingClient.log w lc fs lv msg labels = .ok r ∧
      (0 < (trimRightSlash (filepathSplit lc.LogTarget).1).length →
       fs.dirs.contains (trimRightSlash (filepathSplit lc.LogTarget).1) = false →
         Event.mkdirAll (trimRightSlash (filepathSplit lc.LogTarget).1) 0o766 ∈
           r.events ∧
         (w.mkdirErr (trimRightSlash (filepathSplit lc.LogTarget).1) = none →
            r.fs.dirs.contains (trimRightSlash (filepathSplit lc.LogTarget).1) =
              true)) ∧
      Event.openFile lc.LogTarget
        [OpenFlag.O_APPEND, OpenFlag.O_CREATE, OpenFlag.O_WRONLY] 0o644 ∈ r.events ∧
      r.client.FileLogger = ⟨some lc.LogTarget, lv.str ++ ": "⟩ ∧
      Event.fileAppend lc.LogTarget (lv.str ++ ": ") msg ∈ r.events ∧
      r.fs.lookupFile lc.LogTarget =
        some ((fs.lookupFile lc.LogTarget).getD [] ++ [⟨lv.str ++ ": ", msg⟩]) ∧
      ∃ r2, LoggingClient.log w r.client r.fs lv msg2 labels2 = .ok r2 ∧
        r2.fs.lookupFile lc.LogTarget =
          some ((fs.lookupFile lc.LogTarget).getD [] ++
            [⟨lv.str ++ ": ", msg⟩, ⟨lv.str ++ ": ", msg2⟩]) := by
  have hvf : (verifyLogDirectory w fs lc.LogTarget).1.lookupFile lc.LogTarget =
      fs.lookupFile lc.LogTarget := by
    unfold FS.lookupFile
    rw [verifyLogDirectory_files]
  have h1 : LoggingClient.log w lc fs lv msg labels = .ok
      ⟨none, { lc with FileLogger := ⟨some lc.LogTarget, lv.str ++ ": "⟩ },
       ((verifyLogDirectory w fs lc.LogTarget).1.ensureFile lc.LogTarget).appendLine
         lc.LogTarget ⟨lv.str ++ ": ", msg⟩,
       (verifyLogDirectory w fs lc.LogTarget).2 ++
         [Event.openFile lc.LogTarget
            [OpenFlag.O_APPEND, OpenFlag.O_CREATE, OpenFlag.O_WRONLY] 0o644,
          Event.fileAppend lc.LogTarget (lv.str ++ ": ") msg]⟩ :=
    (log_local w lc fs lv msg labels hloc).trans
      (saveToLogFile_success w lc fs lv.str msg ht hopen)
  have hlook1 : (((verifyLogDirectory w fs lc.LogTarget).1.ensureFile
      lc.LogTarget).appendLine lc.LogTarget ⟨lv.str ++ ": ", msg⟩).lookupFile
        lc.LogTarget =
      some ((fs.lookupFile lc.LogTarget).getD [] ++ [⟨lv.str ++ ": ", msg⟩]) := by
    rw [lookupFile_ensure_append, hvf]
  refine ⟨_, h1, ?_, ?_, rfl, ?_, hlook1, ?_⟩
  · intro hd hnc
    obtain ⟨hmem, hdirs⟩ := verifyLogDirectory_creates w fs lc.LogTarget hd hnc
    refine ⟨List.mem_append_left _ hmem, ?_⟩
    intro hm
    show (((verifyLogDirectory w fs lc.LogTarget).1.ensureFile
      lc.LogTarget).appendLine lc.LogTarget ⟨lv.str ++ ": ", msg⟩).dirs.contains
        (trimRightSlash (filepathSplit lc.LogTarget).1) = true
    rw [appendLine_dirs, ensureFile_dirs]
    exact hdirs hm
  · exact List.mem_append_right _ (by simp)
  · exact List.mem_append_right _ (by simp)
  · have h2 := (log_local w
      { lc with FileLogger := ⟨some lc.LogTarget, lv.str ++ ": "⟩ }
      (((verifyLogDirectory w fs lc.LogTarget).1.ensureFile lc.LogTarget).appendLine
        lc.LogTarget ⟨lv.str ++ ": ", msg⟩) lv msg2 labels2 hloc).trans
      (saveToLogFile_success w
        { lc with FileLogger := ⟨some lc.LogTarget, lv.str ++ ": "⟩ }
        (((verifyLogDirectory w fs lc.LogTarget).1.ensureFile lc.LogTarget).appendLine
          lc.LogTarget ⟨lv.str ++ ": ", msg⟩) lv.str msg2 ht hopen)
    refine ⟨_, h2, ?_⟩
    show ((((verifyLogDirectory w _ lc.LogTarget).1.ensureFile
      lc.LogTarget).appendLine lc.LogTarget ⟨lv.str ++ ": ", msg2⟩)).lookupFile
        lc.LogTarget = _
    rw [lookupFile_ensure_append]
    have hvf2 : (verifyLogDirectory w
        (((verifyLogDirectory w fs lc.LogTarget).1.ensureFile lc.LogTarget).appendLine
          lc.LogTarget ⟨lv.str ++ ": ", msg⟩) lc.LogTarget).1.lookupFile lc.LogTarget =
        some ((fs.lookupFile lc.LogTarget).getD [] ++ [⟨lv.str ++ ": ", msg⟩]) := by
      unfold FS.lookupFile
      rw [verifyLogDirectory_files]
      exact hlook1
    rw [hvf2]
    simp

/-- C8 counterexample: the claim as stated says the only per-call mutation
is the file writer's output target and prefix.  It is not: a log call also
mutates the stdout writer.  Concretely, `Info` on a freshly constructed
client changes the stdout logger's prefix from "" to "INFO: ". -/
theorem C8_counterexample :
    (LoggingClient.Info wOk (NewClient "svc" false "") fs0 "m" []).clientOf.StdOutLogger ≠
      (NewClient "svc" false "").StdOutLogger := by
  decide

/-- C8 (amended): every log operation leaves the client's owning service
name, remote-enabled flag and log target unchanged; the per-call mutations
are confined to the writers: the stdout writer's prefix is set to
"LEVEL: ", and the file writer is either untouched or — exactly when a
file write happened — reset to the log target and the same level prefix. -/
theorem C8_frame (w : World) (lc : LoggingClient) (fs : FS) (msg : String)
    (labels : List String) :
    (∃ r, LoggingClient.Info w lc fs msg labels = .ok r ∧
       r.client.OwningServiceName = lc.OwningServiceName ∧
       r.client.RemoteEnabled = lc.RemoteEnabled ∧
       r.client.LogTarget = lc.LogTarget ∧
       r.client.StdOutLogger = ⟨"INFO: "⟩ ∧
       (r.client.FileLogger = lc.FileLogger ∨
        r.client.FileLogger = ⟨some lc.LogTarget, "INFO: "⟩)) ∧
    (∃ r, LoggingClient.Debug w lc fs msg labels = .ok r ∧
       r.client.OwningServiceName = lc.OwningServiceName ∧
       r.client.RemoteEnabled = lc.RemoteEnabled ∧
       r.client.LogTarget = lc.LogTarget ∧
       r.client.StdOutLogger = ⟨"DEBUG: "⟩ ∧
       (r.client.FileLogger = lc.FileLogger ∨
        r.client.FileLogger = ⟨some lc.LogTarget, "DEBUG: "⟩)) ∧
    (∃ r, LoggingClient.Warn w lc fs msg labels = .ok r ∧
       r.client.OwningServiceName = lc.OwningServiceName ∧
       r.client.RemoteEnabled = lc.RemoteEnabled ∧
       r.client.LogTarget = lc.LogTarget ∧
       r.client.StdOutLogger = ⟨"WARN: "⟩ ∧
       (r.client.FileLogger = lc.FileLogger ∨
        r.client.FileLogger = ⟨some lc.LogTarget, "WARN: "⟩)) ∧
    (∃ r, LoggingClient.Error w lc fs msg labels = .ok r ∧
       r.client.OwningServiceName = lc.OwningServiceName ∧
       r.client.RemoteEnabled = lc.RemoteEnabled ∧
       r.client.LogTarget = lc.LogTarget ∧
       r.client.StdOutLogger = ⟨"ERROR: "⟩ ∧
       (r.client.FileLogger = lc.FileLogger ∨
        r.client.FileLogger = ⟨some lc.LogTarget, "ERROR: "⟩)) := by
  refine ⟨?_, ?_, ?_, ?_⟩
  · obtain ⟨r, hr, hcl⟩ := log_ok w { lc with StdOutLogger := ⟨"INFO: "⟩ } fs
      LogLevel.INFO msg labels
    refine ⟨{ r with events := Event.stdLogLine "INFO: " msg :: r.events },
      by simp only [LoggingClient.Info]; rw [hr], ?_, ?_, ?_, ?_, ?_⟩
    · rcases hcl with h | h <;> rw [h]
    · rcases hcl with h | h <;> rw [h]
    · rcases hcl with h | h <;> rw [h]
    · rcases hcl with h | h <;> rw [h]
    · rcases hcl with h | h
      · exact Or.inl (by rw [h])
      · exact Or.inr (by
          rw [h, show LogLevel.INFO.str ++ ": " = "INFO: " by decide])
  · obtain ⟨r, hr, hcl⟩ := log_ok w { lc with StdOutLogger := ⟨"DEBUG: "⟩ } fs
      LogLevel.DEBUG msg labels
    refine ⟨{ r with events := Event.stdLogLine "DEBUG: " msg :: r.events },
      by simp only [LoggingClient.Debug]; rw [hr], ?_, ?_, ?_, ?_, ?_⟩
    · rcases hcl with h | h <;> rw [h]
    · rcases hcl with h | h <;> rw [h]
    · rcases hcl with h | h <;> rw [h]
    · rcases hcl with h | h <;> rw [h]
    · rcases hcl with h | h
      · exact Or.inl (by rw [h])
      · exact Or.inr (by
          rw [h, show LogLevel.DEBUG.str ++ ": " = "DEBUG: " by decide])
  · obtain ⟨r, hr, hcl⟩ := log_ok w { lc with StdOutLogger := ⟨"WARN: "⟩ } fs
      LogLevel.WARN msg labels
    refine ⟨{ r with events := Event.stdLogLine "WARN: " msg :: r.events },
      by simp only [LoggingClient.Warn]; rw [hr], ?_, ?_, ?_, ?_, ?_⟩
    · rcases hcl with h | h <;> rw [h]
    · rcases hcl with h | h <;> rw [h]
    · rcases hcl with h | h <;> rw [h]
    · rcases hcl with h | h <;> rw [h]
    · rcases hcl with h | h
      · exact Or.inl (by rw [h])
      · exact Or.inr (by
          rw [h, show LogLevel.WARN.str ++ ": " = "WARN: " by decide])
  · obtain ⟨r, hr, hcl⟩ := log_ok w { lc with StdOutLogger := ⟨"ERROR: "⟩ } fs
      LogLevel.ERROR msg labels
    refine ⟨{ r with events := Event.stdLogLine "ERROR: " msg :: r.events },
      by simp only [LoggingClient.Error]; rw [hr], ?_, ?_, ?_, ?_, ?_⟩
    · rcases hcl with h | h <;> rw [h]
    · rcases hcl with h | h <;> rw [h]
    · rcases hcl with h | h <;> rw [h]
    · rcases hcl with h | h <;> rw [h]
    · rcases hcl with h | h
      · exact Or.inl (by rw [h])
      · exact Or.inr (by
          rw [h, show LogLevel.ERROR.str ++ ": " = "ERROR: " by decide])

/-- C10: when opening the log file fails, the deferred Close runs on the
nil handle and — as in the Go runtime — yields ErrInvalid instead of
panicking; the sink returns normally, no log line is written (no
file-append event occurs and the client state, including the file logger,
is unchanged), and the open error is printed and returned. -/
theorem C10_open_failure_safe (w : World) (lc : LoggingClient) (fs : FS)
    (pfx msg e : String) (ht : lc.LogTarget ≠ "")
    (he : w.openErr lc.LogTarget = some e) :
    goFileClose none = .ok (some errInvalid) ∧
    (lc.saveToLogFile w fs pfx msg).isOk = true ∧
    lc.saveToLogFile w fs pfx msg = .ok
      ⟨some e, lc, (verifyLogDirectory w fs lc.LogTarget).1,
       (verifyLogDirectory w fs lc.LogTarget).2 ++
         [Event.openFile lc.LogTarget
            [OpenFlag.O_APPEND, OpenFlag.O_CREATE, OpenFlag.O_WRONLY] 0o644,
          Event.printLine ("Error opening log file: " ++ e)]⟩ ∧
    (∀ p pf m, Event.fileAppend p pf m ∉ (lc.saveToLogFile w fs pfx msg).eventsOf) := by
  have key := saveToLogFile_openFail w lc fs pfx msg e ht he
  refine ⟨rfl, by rw [key]; rfl, key, ?_⟩
  intro p pf m hmem
  rw [key] at hmem
  simp only [GoOutcome.eventsOf] at hmem
  rcases List.mem_append.mp hmem with h | h
  · exact verifyLogDirectory_no_fileAppend w fs lc.LogTarget p pf m h
  · simp at h

/-- A world in which `os.OpenFile` fails with a permission error for every
path and every other environment operation succeeds. -/
def wOpenFail : World :=
  { wOk with openErr := fun _ => some "permission denied" }

/-- Witness for C1 at a concrete empty-target client. -/
theorem C1_empty_target_noop_witness :
    (NewClient "svc" false "").LogTarget = "" ∧
    (LoggingClient.Info wOk (NewClient "svc" false "") fs0 "hello" [] =
      .ok ⟨none, { NewClient "svc" false "" with StdOutLogger := ⟨"INFO: "⟩ }, fs0,
           [Event.stdLogLine "INFO: " "hello"]⟩ ∧
    LoggingClient.Debug wOk (NewClient "svc" false "") fs0 "hello" [] =
      .ok ⟨none, { NewClient "svc" false "" with StdOutLogger := ⟨"DEBUG: "⟩ }, fs0,
           [Event.stdLogLine "DEBUG: " "hello"]⟩ ∧
    LoggingClient.Warn wOk (NewClient "svc" false "") fs0 "hello" [] =
      .ok ⟨none, { NewClient "svc" false "" with StdOutLogger := ⟨"WARN: "⟩ }, fs0,
           [Event.stdLogLine "WARN: " "hello"]⟩ ∧
    LoggingClient.Error wOk (NewClient "svc" false "") fs0 "hello" [] =
      .ok ⟨none, { NewClient "svc" false "" with StdOutLogger := ⟨"ERROR: "⟩ }, fs0,
           [Event.stdLogLine "ERROR: " "hello"]⟩) :=
  ⟨rfl, C1_empty_target_noop wOk (NewClient "svc" false "") fs0 "hello" [] rfl⟩

/-- Witness for C2 at a concrete local client and a concrete remote client. -/
theorem C2_dispatch_witness :
    ((NewClient "svc" false "f.log").RemoteEnabled = false ∧
     LoggingClient.log wOk (NewClient "svc" false "f.log") fs0 LogLevel.WARN "m" ["t"] =
       (NewClient "svc" false "f.log").saveToLogFile wOk fs0 LogLevel.WARN.str "m") ∧
    ((NewClient "svc" true "http://collector/log").RemoteEnabled = true ∧
     (NewClient "svc" true "http://collector/log").buildLogEntry LogLevel.WARN "m" ["t"] =
       { Level := LogLevel.WARN, Message := "m", Labels := ["t"],
         OriginService := "svc" } ∧
     LoggingClient.log wOk (NewClient "svc" true "http://collector/log") fs0
         LogLevel.WARN "m" ["t"] =
       (NewClient "svc" true "http://collector/log").sendLog wOk fs0
         { Level := LogLevel.WARN, Message := "m", Labels := ["t"],
           OriginService := "svc" }) :=
  ⟨⟨rfl, (C2_dispatch wOk (NewClient "svc" false "f.log") fs0
      LogLevel.WARN "m" ["t"]).1 rfl⟩,
   ⟨rfl, (C2_dispatch wOk (NewClient "svc" true "http://collector/log") fs0
      LogLevel.WARN "m" ["t"]).2 rfl⟩⟩

/-- Witness for C3 (amended) at a concrete local client. -/
theorem C3_open_error_only_witness :
    (NewClient "svc" false "a/b.log").RemoteEnabled = false ∧
    (NewClient "svc" false "a/b.log").LogTarget ≠ "" ∧
    ((LoggingClient.log wOk (NewClient "svc" false "a/b.log") fs0
        LogLevel.INFO "m" []).resOf =
       wOk.openErr (NewClient "svc" false "a/b.log").LogTarget ∧
    (∀ e, wOk.openErr (NewClient "svc" false "a/b.log").LogTarget = some e →
       Event.printLine ("Error opening log file: " ++ e) ∈
         (LoggingClient.log wOk (NewClient "svc" false "a/b.log") fs0
           LogLevel.INFO "m" []).eventsOf) ∧
    (∀ f, (LoggingClient.log { wOk with mkdirErr := f }
              (NewClient "svc" false "a/b.log") fs0 LogLevel.INFO "m" []).resOf =
            (LoggingClient.log wOk (NewClient "svc" false "a/b.log") fs0
              LogLevel.INFO "m" []).resOf ∧
          (LoggingClient.log { wOk with mkdirErr := f }
              (NewClient "svc" false "a/b.log") fs0 LogLevel.INFO "m" []).eventsOf =
            (LoggingClient.log wOk (NewClient "svc" false "a/b.log") fs0
              LogLevel.INFO "m" []).eventsOf ∧
          (LoggingClient.log { wOk with mkdirErr := f }
              (NewClient "svc" false "a/b.log") fs0 LogLevel.INFO "m" []).clientOf =
            (LoggingClient.log wOk (NewClient "svc" false "a/b.log") fs0
              LogLevel.INFO "m" []).clientOf)) :=
  ⟨rfl, by decide,
   C3_open_error_only wOk (NewClient "svc" false "a/b.log") fs0
     LogLevel.INFO "m" [] rfl (by decide)⟩

/-- Witness for C5 at a concrete remote client and entry. -/
theorem C5_send_error_contract_witness :
    (NewClient "svc" true "http://collector/log").LogTarget ≠ "" ∧
    ((((NewClient "svc" true "http://collector/log").sendLog wOk fs0
         ⟨LogLevel.WARN, "m", ["t"], "svc"⟩).resOf ≠ none ↔
       (wOk.marshalErr ⟨LogLevel.WARN, "m", ["t"], "svc"⟩ ≠ none ∨
        wOk.reqErr (NewClient "svc" true "http://collector/log").LogTarget ≠ none)) ∧
    (∀ e, wOk.marshalErr ⟨LogLevel.WARN, "m", ["t"], "svc"⟩ = some e →
       (NewClient "svc" true "http://collector/log").sendLog wOk fs0
           ⟨LogLevel.WARN, "m", ["t"], "svc"⟩ =
         .ok ⟨some e, NewClient "svc" true "http://collector/log", fs0,
              [Event.printLine e]⟩) ∧
    (∀ e, wOk.marshalErr ⟨LogLevel.WARN, "m", ["t"], "svc"⟩ = none →
       wOk.reqErr (NewClient "svc" true "http://collector/log").LogTarget = some e →
       (NewClient "svc" true "http://collector/log").sendLog wOk fs0
           ⟨LogLevel.WARN, "m", ["t"], "svc"⟩ =
         .ok ⟨some e, NewClient "svc" true "http://collector/log", fs0,
              [Event.printLine e]⟩) ∧
    (wOk.marshalErr ⟨LogLevel.WARN, "m", ["t"], "svc"⟩ = none →
       wOk.reqErr (NewClient "svc" true "http://collector/log").LogTarget = none →
       (NewClient "svc" true "http://collector/log").sendLog wOk fs0
           ⟨LogLevel.WARN, "m", ["t"], "svc"⟩ =
         .ok ⟨none, NewClient "svc" true "http://collector/log", fs0,
              [Event.remoteLaunch (NewClient "svc" true "http://collector/log").LogTarget
                 ⟨LogLevel.WARN, "m", ["t"], "svc"⟩]⟩) ∧
    (∀ f, LoggingClient.sendLog { wOk with transportErr := f }
        (NewClient "svc" true "http://collector/log") fs0
        ⟨LogLevel.WARN, "m", ["t"], "svc"⟩ =
      (NewClient "svc" true "http://collector/log").sendLog wOk fs0
        ⟨LogLevel.WARN, "m", ["t"], "svc"⟩) ∧
    (∀ e, wOk.transportErr (NewClient "svc" true "http://collector/log").LogTarget =
        some e →
       LoggingClient.makeRequest wOk (NewClient "svc" true "http://collector/log").LogTarget =
         [Event.printLine e]) ∧
    (wOk.transportErr (NewClient "svc" true "http://collector/log").LogTarget = none →
       LoggingClient.makeRequest wOk
         (NewClient "svc" true "http://collector/log").LogTarget = [])) :=
  ⟨by decide,
   C5_send_error_contract wOk (NewClient "svc" true "http://collector/log") fs0
     ⟨LogLevel.WARN, "m", ["t"], "svc"⟩ (by decide)⟩

/-- Witness for C7 at a concrete local client writing twice to "a/b.log". -/
theorem C7_local_file_sink_witness :
    (NewClient "svc" false "a/b.log").RemoteEnabled = false ∧
    (NewClient "svc" false "a/b.log").LogTarget ≠ "" ∧
    wOk.openErr (NewClient "svc" false "a/b.log").LogTarget = none ∧
    (∃ r, LoggingClient.log wOk (NewClient "svc" false "a/b.log") fs0
        LogLevel.INFO "m1" [] = .ok r ∧
      (0 < (trimRightSlash
          (filepathSplit (NewClient "svc" false "a/b.log").LogTarget).1).length →
       fs0.dirs.contains (trimRightSlash
          (filepathSplit (NewClient "svc" false "a/b.log").LogTarget).1) = false →
         Event.mkdirAll (trimRightSlash
             (filepathSplit (NewClient "svc" false "a/b.log").LogTarget).1) 0o766 ∈
           r.events ∧
         (wOk.mkdirErr (trimRightSlash
             (filepathSplit (NewClient "svc" false "a/b.log").LogTarget).1) = none →
            r.fs.dirs.contains (trimRightSlash
              (filepathSplit (NewClient "svc" false "a/b.log").LogTarget).1) =
              true)) ∧
      Event.openFile (NewClient "svc" false "a/b.log").LogTarget
        [OpenFlag.O_APPEND, OpenFlag.O_CREATE, OpenFlag.O_WRONLY] 0o644 ∈ r.events ∧
      r.client.FileLogger =
        ⟨some (NewClient "svc" false "a/b.log").LogTarget, LogLevel.INFO.str ++ ": "⟩ ∧
      Event.fileAppend (NewClient "svc" false "a/b.log").LogTarget
        (LogLevel.INFO.str ++ ": ") "m1" ∈ r.events ∧
      r.fs.lookupFile (NewClient "svc" false "a/b.log").LogTarget =
        some ((fs0.lookupFile (NewClient "svc" false "a/b.log").LogTarget).getD [] ++
          [⟨LogLevel.INFO.str ++ ": ", "m1"⟩]) ∧
      ∃ r2, LoggingClient.log wOk r.client r.fs LogLevel.INFO "m2" [] = .ok r2 ∧
        r2.fs.lookupFile (NewClient "svc" false "a/b.log").LogTarget =
          some ((fs0.lookupFile (NewClient "svc" false "a/b.log").LogTarget).getD [] ++
            [⟨LogLevel.INFO.str ++ ": ", "m1"⟩, ⟨LogLevel.INFO.str ++ ": ", "m2"⟩])) :=
  ⟨rfl, by decide, rfl,
   C7_local_file_sink wOk (NewClient "svc" false "a/b.log") fs0
     LogLevel.INFO "m1" "m2" [] [] rfl (by decide) rfl⟩

/-- Witness for C9 at a concrete local client with two label lists. -/
theorem C9_labels_no_influence_local_witness :
    (NewClient "svc" false "f.log").RemoteEnabled = false ∧
    (LoggingClient.Info wOk (NewClient "svc" false "f.log") fs0 "m" [] =
       LoggingClient.Info wOk (NewClient "svc" false "f.log") fs0 "m" ["t1", "t2"] ∧
     LoggingClient.Debug wOk (NewClient "svc" false "f.log") fs0 "m" [] =
       LoggingClient.Debug wOk (NewClient "svc" false "f.log") fs0 "m" ["t1", "t2"] ∧
     LoggingClient.Warn wOk (NewClient "svc" false "f.log") fs0 "m" [] =
       LoggingClient.Warn wOk (NewClient "svc" false "f.log") fs0 "m" ["t1", "t2"] ∧
     LoggingClient.Error wOk (NewClient "svc" false "f.log") fs0 "m" [] =
       LoggingClient.Error wOk (NewClient "svc" false "f.log") fs0 "m" ["t1", "t2"]) :=
  ⟨rfl, C9_labels_no_influence_local wOk (NewClient "svc" false "f.log") fs0
    "m" [] ["t1", "t2"] rfl⟩

/-- Witness for C10 at a concrete client in the open-failure world. -/
theorem C10_open_failure_safe_witness :
    (NewClient "svc" false "a/b.log").LogTarget ≠ "" ∧
    wOpenFail.openErr (NewClient "svc" false "a/b.log").LogTarget =
      some "permission denied" ∧
    (goFileClose none = .ok (some errInvalid) ∧
    ((NewClient "svc" false "a/b.log").saveToLogFile wOpenFail fs0
        "INFO" "m").isOk = true ∧
    (NewClient "svc" false "a/b.log").saveToLogFile wOpenFail fs0 "INFO" "m" = .ok
      ⟨some "permission denied", NewClient "svc" false "a/b.log",
       (verifyLogDirectory wOpenFail fs0 (NewClient "svc" false "a/b.log").LogTarget).1,
       (verifyLogDirectory wOpenFail fs0 (NewClient "svc" false "a/b.log").LogTarget).2 ++
         [Event.openFile (NewClient "svc" false "a/b.log").LogTarget
            [OpenFlag.O_APPEND, OpenFlag.O_CREATE, OpenFlag.O_WRONLY] 0o644,
          Event.printLine ("Error opening log file: " ++ "permission denied")]⟩ ∧
    (∀ p pf m, Event.fileAppend p pf m ∉
       ((NewClient "svc" false "a/b.log").saveToLogFile wOpenFail fs0
         "INFO" "m").eventsOf)) :=
  ⟨by decide, rfl,
   C10_open_failure_safe wOpenFail (NewClient "svc" false "a/b.log") fs0
     "INFO" "m" "permission denied" (by decide) rfl⟩
